import Mathlib

/-! Thor event core: `thor/kernel/src/generic/event.cpp` and the segment loop of
`loadInitImage` in `thor/src/main.cpp`.

A shallow embedding of the asynchronous event-delivery code of the Thor kernel:
the completion dispatcher `AsyncOperation::complete`, the event hub
(`raiseEvent`, `hasEvent`, `dequeueEvent`, `blockCurrentThread`) and the
`getEvent` projections.

Conventions of the embedding.

* Kernel objects live in a `Kernel` record: the hubs (indexed by their address),
  the liveness of hubs and threads (what a weak pointer upgrade observes), the
  global `scheduleQueue`, the current thread, the interrupt flag and a trace of
  lock acquisitions and releases.
* A `frigg::SharedPtr<Thread>` is an `Option ThreadId`; `none` is the null pointer.
* A failed `assert` (and every other fatal stop) is `Except.error`; the line of
  the assertion in `event.cpp` is recorded.
* `forkExecutor()` returns twice; which of the two returns is followed is a parameter
  of `blockCurrentThread`.
-/

namespace Thor

/-! ## Data model -/

/-- Address of a `Thread` object. -/
abbrev ThreadId := Nat

/-- Address of an `EventHub` object. -/
abbrev HubId := Nat

/-- Modelled from the spec: `SubmitInfo` is declared outside `src/`; the spec calls it
a user-supplied correlation token that is only echoed. -/
abbrev SubmitInfo := Nat

/-- Fatal stops of the kernel. -/
inductive Halt where
  /-- A failed `assert` at the given line of `event.cpp`. -/
  | assertion (line : Nat)
  /-- `removeFront` on an empty `frigg::LinkedList`. -/
  | emptyRemove
  /-- `frigg::Variant::get` on an alternative that is not the stored one. -/
  | badVariant
  /-- `lock` on a locked guard or `unlock` on an unlocked guard. -/
  | guardMisuse
  deriving DecidableEq, Repr

/-- Modelled from the spec: `enum Error` is declared outside `src/`; `event.cpp` names
only `kErrSuccess`, every other code is carried by its number. -/
inductive Error where
  | kErrSuccess
  | kErrOther (code : Nat)
  deriving DecidableEq, Repr

/-- The `EventType` tags used by `event.cpp`. -/
inductive EventType where
  | kEventMemoryLoad
  | kEventMemoryLock
  | kEventObserve
  | kEventSendString
  | kEventSendDescriptor
  | kEventRecvString
  | kEventRecvStringToRing
  | kEventRecvDescriptor
  | kEventAccept
  | kEventConnect
  | kEventIrq
  deriving DecidableEq, Repr

/-- The `AsyncCompleter` variant: its three alternatives are the three cases of the
`switch` in `AsyncOperation::complete`. Weak pointers are the address they refer to. -/
inductive AsyncCompleter where
  | NullCompleter
  | PostEventCompleter (eventHub : HubId) (submitInfo : SubmitInfo)
  | ReturnFromForkCompleter (thread : ThreadId)
  deriving DecidableEq, Repr

/-- The dynamic class of an `AsyncOperation`: one constructor per class that
overrides `getEvent` in `event.cpp`. -/
inductive OperationClass where
  | AsyncHandleLoad
  | AsyncInitiateLoad
  | AsyncObserve
  | AsyncSendString
  | AsyncSendDescriptor
  | AsyncRecvString
  | AsyncRecvDescriptor
  | AsyncAccept
  | AsyncConnect
  | AsyncRingItem
  | AsyncIrq
  deriving DecidableEq, Repr

/-- The `type` member of `AsyncRecvString`. -/
inductive RecvStringType where
  | kTypeNormal
  | kTypeToRing
  deriving DecidableEq, Repr

/-- Modelled from the spec: the operation classes are declared in `kernel.hpp`, which is
not under `src/`. Following the spec (an operation has a kind, a completion descriptor,
an error and the kind-specific result fields) an operation is one flat record carrying
every member that some `getEvent` of `event.cpp` reads. -/
structure AsyncOperation where
  completer : AsyncCompleter
  cls : OperationClass
  type : RecvStringType
  error : Error
  offset : Nat
  length : Nat
  msgRequest : Int
  msgSequence : Int
  handle : Nat
  deriving DecidableEq, Repr

/-- The record built by `getEvent`. The constructor `AsyncEvent::AsyncEvent`
(event.cpp:10-11) initialises `type` and `submitInfo` only; a member that no statement
has written is `none`. -/
structure AsyncEvent where
  type : EventType
  submitInfo : SubmitInfo
  error : Option Error
  offset : Option Nat
  length : Option Nat
  msgRequest : Option Int
  msgSequence : Option Int
  handle : Option Nat
  deriving DecidableEq, Repr

/-- An `EventHub`: the two lists of the class. The `lock` member is named by
`LockRef.hub` of the hub address. -/
structure EventHub where
  _eventQueue : List AsyncOperation
  p_waitingThreads : List ThreadId
  deriving DecidableEq, Repr

/-- The locks that `event.cpp` takes: the lock of a hub and the global `scheduleLock`. -/
inductive LockRef where
  | hub (h : HubId)
  | scheduleLock
  deriving DecidableEq, Repr

/-- One entry of the lock trace. -/
inductive LockEvent where
  | acquire (l : LockRef)
  | release (l : LockRef)
  deriving DecidableEq, Repr

/-- A `frigg::LockGuard` (`EventHub::Guard`, `ScheduleGuard`). -/
structure Guard where
  mutex : LockRef
  isLocked : Bool
  deriving DecidableEq, Repr

/-- The kernel state that `event.cpp` reads and writes. -/
structure Kernel where
  /-- The hub stored at each address. -/
  hubs : HubId → EventHub
  /-- Whether a weak pointer to the hub at this address still upgrades. -/
  hubAlive : HubId → Bool
  /-- Whether a weak pointer to the thread at this address still upgrades. -/
  threadAlive : ThreadId → Bool
  /-- The global `scheduleQueue`; `none` is a null thread pointer. -/
  scheduleQueue : List (Option ThreadId)
  /-- The result of `getCurrentThread()`. -/
  currentThread : ThreadId
  /-- The result of `intsAreEnabled()`. -/
  intsEnabled : Bool
  /-- Every lock acquisition and release so far, oldest first. -/
  lockTrace : List LockEvent

/-- Replace the hub stored at address `h`. -/
def Kernel.setHub (k : Kernel) (h : HubId) (hub : EventHub) : Kernel :=
  { k with hubs := Function.update k.hubs h hub }

/-- Append an entry to the lock trace. -/
def Kernel.logLock (k : Kernel) (e : LockEvent) : Kernel :=
  { k with lockTrace := k.lockTrace ++ [e] }

/-! ## Library code used by `event.cpp` -/

/-- Modelled from the spec: `frigg::LinkedList::addBack` is not under `src/`; the spec
says the operation is appended at the tail of the ordered queue. -/
def LinkedList.addBack {α : Type} (l : List α) (x : α) : List α := l ++ [x]

/-- Modelled from the spec: `frigg::LinkedList::empty` is not under `src/`. -/
def LinkedList.empty {α : Type} (l : List α) : Bool := l.isEmpty

/-- Modelled from the spec: `frigg::LinkedList::removeFront` is not under `src/`; the
spec says it pops the front of the queue and that removing from an empty queue is a
contract violation on which the core halts. -/
def LinkedList.removeFront {α : Type} : List α → Except Halt (α × List α)
  | [] => .error .emptyRemove
  | x :: rest => .ok (x, rest)

/-- Modelled from the spec: `frigg::WeakPtr::grab` is not under `src/`; the spec says the
upgrade of a weak reference fails when the referent has been destroyed. The result is the
shared pointer, null (`none`) on failure. -/
def WeakPtr.grab (alive : Nat → Bool) (p : Nat) : Option Nat :=
  if alive p then some p else none

/-- Modelled from the spec: `frigg::Variant::get` is not under `src/`; reading the
`PostEventCompleter` alternative of a completer that holds another one is fatal. -/
def AsyncCompleter.getPostEventCompleter : AsyncCompleter → Except Halt (HubId × SubmitInfo)
  | .PostEventCompleter eventHub submitInfo => .ok (eventHub, submitInfo)
  | _ => .error .badVariant

/-- Modelled from the spec: `frigg::LockGuard::protects` is not under `src/`; the guard
protects a lock when it holds exactly that lock. -/
def Guard.protects (g : Guard) (m : LockRef) : Bool :=
  g.isLocked && decide (g.mutex = m)

/-- Modelled from the spec: the constructor of `frigg::LockGuard` is not under `src/`; it
acquires the lock. -/
def Guard.acquire (m : LockRef) (k : Kernel) : Guard × Kernel :=
  ({ mutex := m, isLocked := true }, k.logLock (.acquire m))

/-- Modelled from the spec: `frigg::LockGuard::unlock` is not under `src/`; it releases
the lock the guard holds. -/
def Guard.unlock (g : Guard) (k : Kernel) : Except Halt (Guard × Kernel) :=
  if g.isLocked then .ok ({ g with isLocked := false }, k.logLock (.release g.mutex))
  else .error .guardMisuse

/-- Modelled from the spec: `frigg::LockGuard::lock` is not under `src/`; it acquires the
lock of a guard that does not hold it. -/
def Guard.lock (g : Guard) (k : Kernel) : Except Halt (Guard × Kernel) :=
  if g.isLocked then .error .guardMisuse
  else .ok ({ g with isLocked := true }, k.logLock (.acquire g.mutex))

/-- Modelled from the spec: the destructor of `frigg::LockGuard` is not under `src/`; a
guard that still holds its lock releases it at the end of its scope. -/
def Guard.destroy (g : Guard) (k : Kernel) : Kernel :=
  if g.isLocked then k.logLock (.release g.mutex) else k

/-- Modelled from the spec: `enqueueInSchedule` is not under `src/`; the spec says the
scheduler exposes `enqueue(thread)`, which puts the thread on the ready-queue. The pointer
is stored as it is passed. -/
def enqueueInSchedule (_guard : Guard) (thread : Option ThreadId) (k : Kernel) : Kernel :=
  { k with scheduleQueue := LinkedList.addBack k.scheduleQueue thread }

/-! ## `AsyncEvent` and the `getEvent` projections (event.cpp:10-85) -/

/-- The constructor `AsyncEvent::AsyncEvent(type, submit_info)`, event.cpp:10-11. -/
def AsyncEvent.new (type : EventType) (submit_info : SubmitInfo) : AsyncEvent :=
  { type := type, submitInfo := submit_info, error := none, offset := none, length := none,
    msgRequest := none, msgSequence := none, handle := none }

/-- The method `AsyncHandleLoad::getEvent`, event.cpp:13-19. -/
def AsyncHandleLoad.getEvent (op : AsyncOperation) : Except Halt AsyncEvent :=
  match op.completer.getPostEventCompleter with
  | .error e => .error e
  | .ok (_, submitInfo) =>
    let event := AsyncEvent.new .kEventMemoryLoad submitInfo
    let event := { event with error := some .kErrSuccess }
    let event := { event with offset := some op.offset }
    let event := { event with length := some op.length }
    .ok event

/-- The method `AsyncInitiateLoad::getEvent`, event.cpp:20-24. -/
def AsyncInitiateLoad.getEvent (op : AsyncOperation) : Except Halt AsyncEvent :=
  match op.completer.getPostEventCompleter with
  | .error e => .error e
  | .ok (_, submitInfo) =>
    let event := AsyncEvent.new .kEventMemoryLock submitInfo
    let event := { event with error := some .kErrSuccess }
    .ok event

/-- The method `AsyncObserve::getEvent`, event.cpp:25-29. -/
def AsyncObserve.getEvent (op : AsyncOperation) : Except Halt AsyncEvent :=
  match op.completer.getPostEventCompleter with
  | .error e => .error e
  | .ok (_, submitInfo) =>
    let event := AsyncEvent.new .kEventObserve submitInfo
    let event := { event with error := some .kErrSuccess }
    .ok event

/-- The method `AsyncSendString::getEvent`, event.cpp:30-34. -/
def AsyncSendString.getEvent (op : AsyncOperation) : Except Halt AsyncEvent :=
  match op.completer.getPostEventCompleter with
  | .error e => .error e
  | .ok (_, submitInfo) =>
    let event := AsyncEvent.new .kEventSendString submitInfo
    let event := { event with error := some op.error }
    .ok event

/-- The method `AsyncSendDescriptor::getEvent`, event.cpp:35-39. -/
def AsyncSendDescriptor.getEvent (op : AsyncOperation) : Except Halt AsyncEvent :=
  match op.completer.getPostEventCompleter with
  | .error e => .error e
  | .ok (_, submitInfo) =>
    let event := AsyncEvent.new .kEventSendDescriptor submitInfo
    let event := { event with error := some op.error }
    .ok event

/-- The method `AsyncRecvString::getEvent`, event.cpp:40-59. -/
def AsyncRecvString.getEvent (op : AsyncOperation) : Except Halt AsyncEvent :=
  if op.type = .kTypeNormal then
    match op.completer.getPostEventCompleter with
    | .error e => .error e
    | .ok (_, submitInfo) =>
      let event := AsyncEvent.new .kEventRecvString submitInfo
      let event := { event with error := some op.error }
      let event := { event with msgRequest := some op.msgRequest }
      let event := { event with msgSequence := some op.msgSequence }
      let event := { event with length := some op.length }
      .ok event
  else
    if op.type ≠ .kTypeToRing then .error (.assertion 49) else
    match op.completer.getPostEventCompleter with
    | .error e => .error e
    | .ok (_, submitInfo) =>
      let event := AsyncEvent.new .kEventRecvStringToRing submitInfo
      let event := { event with error := some op.error }
      let event := { event with msgRequest := some op.msgRequest }
      let event := { event with msgSequence := some op.msgSequence }
      let event := { event with offset := some op.offset }
      let event := { event with length := some op.length }
      .ok event

/-- The method `AsyncRecvDescriptor::getEvent`, event.cpp:60-67. -/
def AsyncRecvDescriptor.getEvent (op : AsyncOperation) : Except Halt AsyncEvent :=
  match op.completer.getPostEventCompleter with
  | .error e => .error e
  | .ok (_, submitInfo) =>
    let event := AsyncEvent.new .kEventRecvDescriptor submitInfo
    let event := { event with error := some op.error }
    let event := { event with msgRequest := some op.msgRequest }
    let event := { event with msgSequence := some op.msgSequence }
    let event := { event with handle := some op.handle }
    .ok event

/-- The method `AsyncAccept::getEvent`, event.cpp:68-73. -/
def AsyncAccept.getEvent (op : AsyncOperation) : Except Halt AsyncEvent :=
  match op.completer.getPostEventCompleter with
  | .error e => .error e
  | .ok (_, submitInfo) =>
    let event := AsyncEvent.new .kEventAccept submitInfo
    let event := { event with error := some .kErrSuccess }
    let event := { event with handle := some op.handle }
    .ok event

/-- The method `AsyncConnect::getEvent`, event.cpp:74-79. -/
def AsyncConnect.getEvent (op : AsyncOperation) : Except Halt AsyncEvent :=
  match op.completer.getPostEventCompleter with
  | .error e => .error e
  | .ok (_, submitInfo) =>
    let event := AsyncEvent.new .kEventConnect submitInfo
    let event := { event with error := some .kErrSuccess }
    let event := { event with handle := some op.handle }
    .ok event

/-- The method `AsyncRingItem::getEvent`, event.cpp:80: `assert(false)`. -/
def AsyncRingItem.getEvent (_op : AsyncOperation) : Except Halt AsyncEvent :=
  .error (.assertion 80)

/-- The method `AsyncIrq::getEvent`, event.cpp:81-85. -/
def AsyncIrq.getEvent (op : AsyncOperation) : Except Halt AsyncEvent :=
  match op.completer.getPostEventCompleter with
  | .error e => .error e
  | .ok (_, submitInfo) =>
    let event := AsyncEvent.new .kEventIrq submitInfo
    let event := { event with error := some .kErrSuccess }
    .ok event

/-- The virtual call `operation->getEvent()`: dispatch on the dynamic class. -/
def AsyncOperation.getEvent (op : AsyncOperation) : Except Halt AsyncEvent :=
  match op.cls with
  | .AsyncHandleLoad => AsyncHandleLoad.getEvent op
  | .AsyncInitiateLoad => AsyncInitiateLoad.getEvent op
  | .AsyncObserve => AsyncObserve.getEvent op
  | .AsyncSendString => AsyncSendString.getEvent op
  | .AsyncSendDescriptor => AsyncSendDescriptor.getEvent op
  | .AsyncRecvString => AsyncRecvString.getEvent op
  | .AsyncRecvDescriptor => AsyncRecvDescriptor.getEvent op
  | .AsyncAccept => AsyncAccept.getEvent op
  | .AsyncConnect => AsyncConnect.getEvent op
  | .AsyncRingItem => AsyncRingItem.getEvent op
  | .AsyncIrq => AsyncIrq.getEvent op

/-! ## `EventHub` (event.cpp:119-165) -/

/-- The constructor `EventHub::EventHub`, event.cpp:119: both lists start empty. -/
def EventHub.new : EventHub :=
  { _eventQueue := [], p_waitingThreads := [] }

/-- The `while` loop of `EventHub::raiseEvent`, event.cpp:126-132. The list argument is
`p_waitingThreads` of hub `h` on entry of the iteration; an iteration removes its front,
upgrades it and passes the result to `enqueueInSchedule` under a fresh `ScheduleGuard`. -/
def EventHub.raiseEventLoop (h : HubId) : List ThreadId → Kernel → Except Halt Kernel
  | [], k => .ok k
  | front :: rest, k =>
    let k := k.setHub h { (k.hubs h) with p_waitingThreads := rest }
    let waiting := WeakPtr.grab k.threadAlive front
    let (schedule_guard, k) := Guard.acquire .scheduleLock k
    let k := enqueueInSchedule schedule_guard waiting k
    match schedule_guard.unlock k with
    | .error e => .error e
    | .ok (_, k) => EventHub.raiseEventLoop h rest k

/-- The method `EventHub::raiseEvent` of the hub at address `h`, event.cpp:121-133. -/
def EventHub.raiseEvent (h : HubId) (guard : Guard) (operation : AsyncOperation)
    (k : Kernel) : Except Halt Kernel :=
  if !guard.protects (.hub h) then .error (.assertion 122) else
  let k := k.setHub h
    { (k.hubs h) with _eventQueue := LinkedList.addBack (k.hubs h)._eventQueue operation }
  EventHub.raiseEventLoop h (k.hubs h).p_waitingThreads k

/-- The method `EventHub::hasEvent` of the hub at address `h`, event.cpp:135-139. -/
def EventHub.hasEvent (h : HubId) (guard : Guard) (k : Kernel) : Except Halt Bool :=
  if !guard.protects (.hub h) then .error (.assertion 136) else
  .ok (!LinkedList.empty (k.hubs h)._eventQueue)

/-- The method `EventHub::dequeueEvent` of the hub at address `h`, event.cpp:141-145. -/
def EventHub.dequeueEvent (h : HubId) (guard : Guard) (k : Kernel) :
    Except Halt (AsyncOperation × Kernel) :=
  if !guard.protects (.hub h) then .error (.assertion 142) else
  match LinkedList.removeFront (k.hubs h)._eventQueue with
  | .error e => .error e
  | .ok (operation, rest) => .ok (operation, k.setHub h { (k.hubs h) with _eventQueue := rest })

/-- How a call of `blockCurrentThread` leaves the calling context. -/
inductive BlockOutcome where
  /-- First return of `forkExecutor`: control is handed to `doSchedule` (not under `src/`)
  with the schedule guard; the hub guard is left unlocked. -/
  | scheduled (guard : Guard) (schedule_guard : Guard) (k : Kernel)
  /-- Later return of `forkExecutor`: the method returns to its caller. -/
  | returned (guard : Guard) (k : Kernel)

/-- The method `EventHub::blockCurrentThread` of the hub at address `h`, event.cpp:147-165.
`forkExecutor()` returns twice during one call, and `forkExecutor` says which return is
followed.

* `true`, the first return: the call has just been entered with guard `guard` in kernel
  state `k`; it passes the assertions of lines 148-149 and takes the sleeping path of lines
  152-159 up to the hand-off to `doSchedule`.
* `false`, the later return in the resumed thread: control continues behind the call of
  `forkExecutor()` at line 151, so lines 148-149 are not executed again; `guard` is the
  guard as line 156 left it and `k` the kernel state at the resumption. Line 164 locks the
  guard and the method returns to its caller. -/
def EventHub.blockCurrentThread (h : HubId) (guard : Guard) (forkExecutor : Bool)
    (k : Kernel) : Except Halt BlockOutcome :=
  if forkExecutor then
    if k.intsEnabled then .error (.assertion 148) else
    if !guard.protects (.hub h) then .error (.assertion 149) else
    let this_thread := k.currentThread
    let k := k.setHub h
      { (k.hubs h) with p_waitingThreads := LinkedList.addBack (k.hubs h).p_waitingThreads this_thread }
    match guard.unlock k with
    | .error e => .error e
    | .ok (guard, k) =>
      let (schedule_guard, k) := Guard.acquire .scheduleLock k
      .ok (.scheduled guard schedule_guard k)
  else
    match guard.lock k with
    | .error e => .error e
    | .ok (guard, k) => .ok (.returned guard k)

/-! ## `AsyncOperation::complete` (event.cpp:91-113) -/

/-- The static method `AsyncOperation::complete`, event.cpp:91-113. The `default` case of
the `switch` (line 111) has no counterpart: the variant has exactly the three alternatives
that the `switch` names. -/
def AsyncOperation.complete (operation : AsyncOperation) (k : Kernel) : Except Halt Kernel :=
  match operation.completer with
  | .NullCompleter => .ok k
  | .PostEventCompleter eventHub _ =>
    match WeakPtr.grab k.hubAlive eventHub with
    | none => .error (.assertion 98)
    | some event_hub =>
      let (hub_guard, k) := Guard.acquire (.hub event_hub) k
      match EventHub.raiseEvent event_hub hub_guard operation k with
      | .error e => .error e
      | .ok k => .ok (hub_guard.destroy k)
  | .ReturnFromForkCompleter thread =>
    match WeakPtr.grab k.threadAlive thread with
    | none => .error (.assertion 105)
    | some thread =>
      let (schedule_guard, k) := Guard.acquire .scheduleLock k
      let k := enqueueInSchedule schedule_guard (some thread) k
      .ok (schedule_guard.destroy k)

/-! ## Call sequences used to state the properties -/

/-- Call `raiseEvent` on hub `h` for each operation of the list, in order. -/
def raiseAll (h : HubId) (guard : Guard) : List AsyncOperation → Kernel → Except Halt Kernel
  | [], k => .ok k
  | operation :: rest, k =>
    match EventHub.raiseEvent h guard operation k with
    | .error e => .error e
    | .ok k => raiseAll h guard rest k

/-- Call `dequeueEvent` on hub `h` the given number of times and collect the results. -/
def dequeueN (h : HubId) (guard : Guard) : Nat → Kernel →
    Except Halt (List AsyncOperation × Kernel)
  | 0, k => .ok ([], k)
  | n + 1, k =>
    match EventHub.dequeueEvent h guard k with
    | .error e => .error e
    | .ok (operation, k) =>
      match dequeueN h guard n k with
      | .error e => .error e
      | .ok (rest, k) => .ok (operation :: rest, k)

/-- An operation with the given class and completer and all result fields zero. -/
def mkOperation (cls : OperationClass) (completer : AsyncCompleter) : AsyncOperation :=
  { completer := completer, cls := cls, type := .kTypeNormal, error := .kErrSuccess,
    offset := 0, length := 0, msgRequest := 0, msgSequence := 0, handle := 0 }

/-- A kernel in which every hub is freshly constructed, hub 1 and thread 5 are alive and
everything else has been destroyed; interrupts are disabled. -/
def bootKernel : Kernel :=
  { hubs := fun _ => EventHub.new,
    hubAlive := fun h => decide (h = 1),
    threadAlive := fun t => decide (t = 5),
    scheduleQueue := [],
    currentThread := 5,
    intsEnabled := false,
    lockTrace := [] }

/-- A guard that holds the lock of hub `h`. -/
def hubGuard (h : HubId) : Guard := { mutex := .hub h, isLocked := true }

/-- The kernel `bootKernel` with the given thread liveness, in which hub 1 has an empty
event queue and the given waiter list. -/
def waitersKernel (alive : ThreadId → Bool) (ws : List ThreadId) : Kernel :=
  { bootKernel with
    hubs := fun h => if h = 1 then { _eventQueue := [], p_waitingThreads := ws } else EventHub.new,
    threadAlive := alive }

/-! ## Reachable hub states -/

/-- The kernel states reachable, as far as hub `h` is concerned, from a freshly constructed
hub by calls of `raiseEvent`, of `dequeueEvent` that return an operation, and of
`blockCurrentThread` on its sleeping path. Between two calls the rest of the kernel may
change in any way that leaves hub `h` as it is. -/
inductive Reachable (h : HubId) : Kernel → Prop where
  | fresh (k : Kernel) : k.hubs h = EventHub.new → Reachable h k
  | raise (k k1 : Kernel) (guard : Guard) (operation : AsyncOperation) :
      Reachable h k → EventHub.raiseEvent h guard operation k = .ok k1 → Reachable h k1
  | dequeue (k k1 : Kernel) (guard : Guard) (operation : AsyncOperation) :
      Reachable h k → EventHub.dequeueEvent h guard k = .ok (operation, k1) → Reachable h k1
  | block (k k1 : Kernel) (guard guard1 schedule_guard : Guard) :
      Reachable h k →
      EventHub.blockCurrentThread h guard true k = .ok (.scheduled guard1 schedule_guard k1) →
      Reachable h k1
  | other (k k1 : Kernel) : Reachable h k → k1.hubs h = k.hubs h → Reachable h k1

/-- The same as `Reachable`, except that `blockCurrentThread` is only called when `hasEvent`
has just returned `false` under the same guard (the discipline of a caller that tests
before it sleeps). -/
inductive ReachableChecked (h : HubId) : Kernel → Prop where
  | fresh (k : Kernel) : k.hubs h = EventHub.new → ReachableChecked h k
  | raise (k k1 : Kernel) (guard : Guard) (operation : AsyncOperation) :
      ReachableChecked h k → EventHub.raiseEvent h guard operation k = .ok k1 →
      ReachableChecked h k1
  | dequeue (k k1 : Kernel) (guard : Guard) (operation : AsyncOperation) :
      ReachableChecked h k → EventHub.dequeueEvent h guard k = .ok (operation, k1) →
      ReachableChecked h k1
  | block (k k1 : Kernel) (guard guard1 schedule_guard : Guard) :
      ReachableChecked h k →
      EventHub.hasEvent h guard k = .ok false →
      EventHub.blockCurrentThread h guard true k = .ok (.scheduled guard1 schedule_guard k1) →
      ReachableChecked h k1
  | other (k k1 : Kernel) : ReachableChecked h k → k1.hubs h = k.hubs h →
      ReachableChecked h k1

/-- The kernel state in which the sleeping path of `blockCurrentThread`, called on hub 1 of
`bootKernel`, hands control to the scheduler. -/
def blockedKernel : Kernel :=
  match EventHub.blockCurrentThread 1 (hubGuard 1) true bootKernel with
  | .ok (.scheduled _ _ k) => k
  | _ => bootKernel

/-- The kernel state after `raiseEvent` of an `AsyncObserve` operation on hub 1 of
`bootKernel`. -/
def raisedKernel : Kernel :=
  match EventHub.raiseEvent 1 (hubGuard 1)
      (mkOperation .AsyncObserve (.PostEventCompleter 1 10)) bootKernel with
  | .ok k => k
  | .error _ => bootKernel

/-- The kernel state in which the sleeping path of `blockCurrentThread`, called on hub 1 of
`raisedKernel`, hands control to the scheduler. -/
def raisedBlockedKernel : Kernel :=
  match EventHub.blockCurrentThread 1 (hubGuard 1) true raisedKernel with
  | .ok (.scheduled _ _ k) => k
  | _ => raisedKernel

/-! ## The tables of the specification, for comparison with `event.cpp` -/

/-- The operation kinds that the specification lists (section 3, table of kinds). This
enumeration follows the words of the specification, not the code. -/
inductive SpecKind where
  | MemoryLoad
  | MemoryLock
  | Observe
  | SendString
  | SendDescriptor
  | RecvString
  | RecvStringToRing
  | RecvDescriptor
  | Accept
  | Connect
  | Join
  | Irq
  deriving DecidableEq, Repr

/-- The kind of the specification that a tag of `event.cpp` stands for, by its name. -/
def EventType.specKind : EventType → SpecKind
  | .kEventMemoryLoad => .MemoryLoad
  | .kEventMemoryLock => .MemoryLock
  | .kEventObserve => .Observe
  | .kEventSendString => .SendString
  | .kEventSendDescriptor => .SendDescriptor
  | .kEventRecvString => .RecvString
  | .kEventRecvStringToRing => .RecvStringToRing
  | .kEventRecvDescriptor => .RecvDescriptor
  | .kEventAccept => .Accept
  | .kEventConnect => .Connect
  | .kEventIrq => .Irq

/-- Whether the specification lists `offset` as meaningful for the kind (section 3). -/
def SpecKind.meaningfulOffset : SpecKind → Bool
  | .MemoryLoad => true
  | .RecvStringToRing => true
  | _ => false

/-- Whether the specification lists `length` as meaningful for the kind (section 3). -/
def SpecKind.meaningfulLength : SpecKind → Bool
  | .MemoryLoad => true
  | .RecvString => true
  | .RecvStringToRing => true
  | _ => false

/-- Whether the specification lists `msg_request` and `msg_sequence` as meaningful for the
kind (section 3). -/
def SpecKind.meaningfulMsg : SpecKind → Bool
  | .RecvString => true
  | .RecvStringToRing => true
  | .RecvDescriptor => true
  | _ => false

/-- Whether the specification lists `handle` as meaningful for the kind (section 3). -/
def SpecKind.meaningfulHandle : SpecKind → Bool
  | .RecvDescriptor => true
  | .Accept => true
  | .Connect => true
  | _ => false

/-- An operation of the given class, completer and receive type whose result fields are all
different from zero and whose error is not success. -/
def busyOperation (cls : OperationClass) (completer : AsyncCompleter) (type : RecvStringType) :
    AsyncOperation :=
  { completer := completer, cls := cls, type := type, error := .kErrOther 3,
    offset := 4096, length := 1024, msgRequest := 7, msgSequence := -8, handle := 42 }

/-! ## `loadInitImage` (main.cpp:24-84): the pages of one segment -/

/-- What the wake-up loop of `raiseEvent` does: it always returns, appends the upgrade
result of every waiter to `scheduleQueue` in waiter order, empties the waiter list it was
started on, and leaves everything else but the lock trace as it was. -/
theorem raiseEventLoop_spec (h : HubId) (ws : List ThreadId) (k : Kernel) :
    ∃ k1, EventHub.raiseEventLoop h ws k = .ok k1 ∧
      k1.scheduleQueue = k.scheduleQueue ++ ws.map (WeakPtr.grab k.threadAlive) ∧
      (k1.hubs h)._eventQueue = (k.hubs h)._eventQueue ∧
      ((k.hubs h).p_waitingThreads = ws → (k1.hubs h).p_waitingThreads = []) ∧
      (∀ h1, h1 ≠ h → k1.hubs h1 = k.hubs h1) ∧
      k1.hubAlive = k.hubAlive ∧ k1.threadAlive = k.threadAlive ∧
      k1.currentThread = k.currentThread ∧ k1.intsEnabled = k.intsEnabled := by
  induction ws generalizing k with
  | nil =>
    exact ⟨k, rfl, by simp, rfl, fun hw => hw, fun _ _ => rfl, rfl, rfl, rfl, rfl⟩
  | cons front rest ih =>
    obtain ⟨k1, hrun, hq, he, hw, hframe, ha, hta, hc, hi⟩ :=
      ih ((enqueueInSchedule (Guard.acquire .scheduleLock
            (k.setHub h { (k.hubs h) with p_waitingThreads := rest })).1
          (WeakPtr.grab k.threadAlive front)
          (Guard.acquire .scheduleLock
            (k.setHub h { (k.hubs h) with p_waitingThreads := rest })).2).logLock
        (.release .scheduleLock))
    refine ⟨k1, ?_, ?_, ?_, ?_, ?_, ?_, ?_, ?_, ?_⟩
    · simpa [EventHub.raiseEventLoop, Guard.unlock, Guard.acquire, Kernel.setHub] using hrun
    · simpa [enqueueInSchedule, Guard.acquire, Kernel.logLock, Kernel.setHub,
        LinkedList.addBack] using hq
    · simpa [enqueueInSchedule, Guard.acquire, Kernel.logLock, Kernel.setHub] using he
    · intro _
      apply hw
      simp [enqueueInSchedule, Guard.acquire, Kernel.logLock, Kernel.setHub]
    · intro h1 hne
      rw [hframe h1 hne]
      simp [enqueueInSchedule, Guard.acquire, Kernel.logLock, Kernel.setHub, hne]
    · simpa [enqueueInSchedule, Guard.acquire, Kernel.logLock, Kernel.setHub] using ha
    · simpa [enqueueInSchedule, Guard.acquire, Kernel.logLock, Kernel.setHub] using hta
    · simpa [enqueueInSchedule, Guard.acquire, Kernel.logLock, Kernel.setHub] using hc
    · simpa [enqueueInSchedule, Guard.acquire, Kernel.logLock, Kernel.setHub] using hi

/-- What `raiseEvent` does when the guard protects the hub lock. -/
theorem raiseEvent_spec (h : HubId) (guard : Guard) (operation : AsyncOperation) (k : Kernel)
    (hg : guard.protects (.hub h) = true) :
    ∃ k1, EventHub.raiseEvent h guard operation k = .ok k1 ∧
      k1.scheduleQueue = k.scheduleQueue ++
        (k.hubs h).p_waitingThreads.map (WeakPtr.grab k.threadAlive) ∧
      (k1.hubs h)._eventQueue = (k.hubs h)._eventQueue ++ [operation] ∧
      (k1.hubs h).p_waitingThreads = [] ∧
      (∀ h1, h1 ≠ h → k1.hubs h1 = k.hubs h1) ∧
      k1.hubAlive = k.hubAlive ∧ k1.threadAlive = k.threadAlive ∧
      k1.currentThread = k.currentThread ∧ k1.intsEnabled = k.intsEnabled := by
  obtain ⟨k1, hrun, hq, he, hw, hframe, ha, hta, hc, hi⟩ :=
    raiseEventLoop_spec h (k.hubs h).p_waitingThreads
      (k.setHub h { (k.hubs h) with
        _eventQueue := LinkedList.addBack (k.hubs h)._eventQueue operation })
  refine ⟨k1, ?_, ?_, ?_, ?_, ?_, ?_, ?_, ?_, ?_⟩
  · simpa [EventHub.raiseEvent, hg, Kernel.setHub] using hrun
  · simpa [Kernel.setHub] using hq
  · simpa [Kernel.setHub, LinkedList.addBack] using he
  · apply hw
    simp [Kernel.setHub]
  · intro h1 hne
    rw [hframe h1 hne]
    simp [Kernel.setHub, hne]
  · simpa [Kernel.setHub] using ha
  · simpa [Kernel.setHub] using hta
  · simpa [Kernel.setHub] using hc
  · simpa [Kernel.setHub] using hi

/-- Raising a list of operations appends them, in order, to the event queue. -/
theorem raiseAll_spec (h : HubId) (guard : Guard) (ops : List AsyncOperation) (k : Kernel)
    (hg : guard.protects (.hub h) = true) :
    ∃ k1, raiseAll h guard ops k = .ok k1 ∧
      (k1.hubs h)._eventQueue = (k.hubs h)._eventQueue ++ ops := by
  induction ops generalizing k with
  | nil => exact ⟨k, rfl, by simp⟩
  | cons operation rest ih =>
    obtain ⟨k1, hrun, -, he, -⟩ := raiseEvent_spec h guard operation k hg
    obtain ⟨k2, hrun2, he2⟩ := ih k1
    refine ⟨k2, ?_, ?_⟩
    · simp [raiseAll, hrun, hrun2]
    · rw [he2, he]
      simp

/-- Dequeuing as many times as a prefix of the event queue is long returns that prefix and
leaves the remainder. -/
theorem dequeueN_spec (h : HubId) (guard : Guard) (ops rest : List AsyncOperation)
    (k : Kernel) (hg : guard.protects (.hub h) = true)
    (hq : (k.hubs h)._eventQueue = ops ++ rest) :
    ∃ k1, dequeueN h guard ops.length k = .ok (ops, k1) ∧
      (k1.hubs h)._eventQueue = rest ∧
      (k1.hubs h).p_waitingThreads = (k.hubs h).p_waitingThreads ∧
      k1.scheduleQueue = k.scheduleQueue := by
  induction ops generalizing k with
  | nil => exact ⟨k, rfl, by simpa using hq, rfl, rfl⟩
  | cons operation tail ih =>
    obtain ⟨k1, hrun, he, hw, hs⟩ :=
      ih (k.setHub h { (k.hubs h) with _eventQueue := tail ++ rest }) (by simp [Kernel.setHub])
    refine ⟨k1, ?_, he, ?_, ?_⟩
    · simp [dequeueN, EventHub.dequeueEvent, hg, hq, LinkedList.removeFront, hrun]
    · simpa [Kernel.setHub] using hw
    · simpa [Kernel.setHub] using hs

/-- A call of `raiseEvent` that returns leaves the waiter list empty and the operation at
the tail of the event queue. -/
theorem raiseEvent_ok_inv (h : HubId) (guard : Guard) (operation : AsyncOperation)
    (k k1 : Kernel) (hrun : EventHub.raiseEvent h guard operation k = .ok k1) :
    (k1.hubs h)._eventQueue = (k.hubs h)._eventQueue ++ [operation] ∧
      (k1.hubs h).p_waitingThreads = [] := by
  by_cases hg : guard.protects (.hub h) = true
  · obtain ⟨k2, hrun2, -, he, hw, -⟩ := raiseEvent_spec h guard operation k hg
    rw [hrun2] at hrun
    cases hrun
    exact ⟨he, hw⟩
  · simp [EventHub.raiseEvent, hg] at hrun

/-- A call of `dequeueEvent` that returns has removed the front of the event queue and has
left the waiter list as it was. -/
theorem dequeueEvent_ok_inv (h : HubId) (guard : Guard) (operation : AsyncOperation)
    (k k1 : Kernel) (hrun : EventHub.dequeueEvent h guard k = .ok (operation, k1)) :
    (k.hubs h)._eventQueue = operation :: (k1.hubs h)._eventQueue ∧
      (k1.hubs h).p_waitingThreads = (k.hubs h).p_waitingThreads := by
  unfold EventHub.dequeueEvent at hrun
  split at hrun
  · cases hrun
  · cases hq : (k.hubs h)._eventQueue with
    | nil => simp [hq, LinkedList.removeFront] at hrun
    | cons front rest =>
      simp only [hq, LinkedList.removeFront, Except.ok.injEq, Prod.mk.injEq] at hrun
      obtain ⟨hop, hk⟩ := hrun
      subst hop
      subst hk
      simp [Kernel.setHub]

/-- The sleeping path of `blockCurrentThread`, when it reaches the scheduler, has appended
the current thread to the waiter list and has left the event queue as it was. -/
theorem blockCurrentThread_scheduled_inv (h : HubId) (guard guard1 schedule_guard : Guard)
    (k k1 : Kernel)
    (hrun : EventHub.blockCurrentThread h guard true k =
      .ok (.scheduled guard1 schedule_guard k1)) :
    (k1.hubs h)._eventQueue = (k.hubs h)._eventQueue ∧
      (k1.hubs h).p_waitingThreads = (k.hubs h).p_waitingThreads ++ [k.currentThread] := by
  simp only [EventHub.blockCurrentThread, ↓reduceIte] at hrun
  split at hrun
  · cases hrun
  · split at hrun
    · cases hrun
    · rename_i hg
      have hl : guard.isLocked = true := by
        simp [Guard.protects] at hg
        exact hg.1
      simp only [Guard.unlock, hl, ↓reduceIte, Guard.acquire, Except.ok.injEq,
        BlockOutcome.scheduled.injEq] at hrun
      obtain ⟨-, -, hk⟩ := hrun
      subst hk
      simp [Kernel.setHub, Kernel.logLock, LinkedList.addBack]

/-- The later return of `forkExecutor()`: with the guard unlocked, as the sleeping path left
it, `blockCurrentThread` locks the guard again (line 164) and returns to its caller with the
hub lock held; no assertion of lines 148-149 is executed again and nothing but the lock
trace changes. -/
theorem blockCurrentThread_resumed_spec (h : HubId) (guard : Guard) (k : Kernel)
    (hunlocked : guard.isLocked = false) :
    EventHub.blockCurrentThread h guard false k =
      .ok (.returned { guard with isLocked := true } (k.logLock (.acquire guard.mutex))) := by
  simp [EventHub.blockCurrentThread, Guard.lock, hunlocked]

/-- The result `false` of `hasEvent` means that the event queue is empty. -/
theorem hasEvent_false_inv (h : HubId) (guard : Guard) (k : Kernel)
    (hrun : EventHub.hasEvent h guard k = .ok false) : (k.hubs h)._eventQueue = [] := by
  unfold EventHub.hasEvent at hrun
  split at hrun
  · cases hrun
  · simpa [LinkedList.empty] using hrun

/-! ## The claims -/

/-- C1 (FIFO delivery). On a hub whose event queue is empty, with the caller holding the hub
lock, raising `ops` in order succeeds, and dequeuing `ops.length` times afterwards succeeds,
returns exactly `ops` in the same order and leaves the event queue empty. -/
theorem fifo_delivery (h : HubId) (guard : Guard) (ops : List AsyncOperation) (k : Kernel)
    (hg : guard.protects (.hub h) = true) (hempty : (k.hubs h)._eventQueue = []) :
    ∃ k1 k2, raiseAll h guard ops k = .ok k1 ∧
      dequeueN h guard ops.length k1 = .ok (ops, k2) ∧
      (k2.hubs h)._eventQueue = [] := by
  obtain ⟨k1, hrun, he⟩ := raiseAll_spec h guard ops k hg
  obtain ⟨k2, hrun2, he2, -⟩ :=
    dequeueN_spec h guard ops [] k1 hg (by rw [he, hempty]; simp)
  exact ⟨k1, k2, hrun, hrun2, he2⟩

/-- Witness of C1: three operations of different classes raised on hub 1 of `bootKernel`. -/
theorem fifo_delivery_witness :
    (hubGuard 1).protects (.hub 1) = true ∧ (bootKernel.hubs 1)._eventQueue = [] ∧
    ∃ k1 k2,
      raiseAll 1 (hubGuard 1)
        [mkOperation .AsyncHandleLoad (.PostEventCompleter 1 11),
         mkOperation .AsyncSendString (.PostEventCompleter 1 12),
         mkOperation .AsyncAccept (.PostEventCompleter 1 13)] bootKernel = .ok k1 ∧
      dequeueN 1 (hubGuard 1) 3 k1 = .ok
        ([mkOperation .AsyncHandleLoad (.PostEventCompleter 1 11),
          mkOperation .AsyncSendString (.PostEventCompleter 1 12),
          mkOperation .AsyncAccept (.PostEventCompleter 1 13)], k2) ∧
      (k2.hubs 1)._eventQueue = [] :=
  ⟨by decide, rfl, fifo_delivery 1 (hubGuard 1) _ bootKernel (by decide) rfl⟩

/-- C2 (postcondition of raise). With the caller holding the hub lock and every waiter
alive, `raiseEvent` returns; afterwards the event queue is the old queue followed by the
operation (hence non-empty), the waiter list is empty, and `scheduleQueue` is the old one
followed by the former waiters in waiter order. -/
theorem raiseEvent_postcondition (h : HubId) (guard : Guard) (operation : AsyncOperation)
    (k : Kernel) (hg : guard.protects (.hub h) = true)
    (halive : ∀ t ∈ (k.hubs h).p_waitingThreads, k.threadAlive t = true) :
    ∃ k1, EventHub.raiseEvent h guard operation k = .ok k1 ∧
      (k1.hubs h)._eventQueue = (k.hubs h)._eventQueue ++ [operation] ∧
      (k1.hubs h)._eventQueue ≠ [] ∧
      (k1.hubs h).p_waitingThreads = [] ∧
      k1.scheduleQueue = k.scheduleQueue ++ (k.hubs h).p_waitingThreads.map some := by
  obtain ⟨k1, hrun, hq, he, hw, -⟩ := raiseEvent_spec h guard operation k hg
  refine ⟨k1, hrun, he, by simp [he], hw, ?_⟩
  rw [hq]
  congr 1
  apply List.map_congr_left
  intro t ht
  simp [WeakPtr.grab, halive t ht]

/-- Witness of C2: hub 1 has the two live waiters 5 and 6. -/
theorem raiseEvent_postcondition_witness :
    (hubGuard 1).protects (.hub 1) = true ∧
    (∀ t ∈ ((waitersKernel (fun t => decide (t = 5 ∨ t = 6)) [5, 6]).hubs 1).p_waitingThreads,
      (waitersKernel (fun t => decide (t = 5 ∨ t = 6)) [5, 6]).threadAlive t = true) ∧
    ∃ k1, EventHub.raiseEvent 1 (hubGuard 1)
        (mkOperation .AsyncObserve (.PostEventCompleter 1 10))
        (waitersKernel (fun t => decide (t = 5 ∨ t = 6)) [5, 6]) = .ok k1 ∧
      (k1.hubs 1)._eventQueue =
        ((waitersKernel (fun t => decide (t = 5 ∨ t = 6)) [5, 6]).hubs 1)._eventQueue ++
          [mkOperation .AsyncObserve (.PostEventCompleter 1 10)] ∧
      (k1.hubs 1)._eventQueue ≠ [] ∧
      (k1.hubs 1).p_waitingThreads = [] ∧
      k1.scheduleQueue =
        (waitersKernel (fun t => decide (t = 5 ∨ t = 6)) [5, 6]).scheduleQueue ++
          ((waitersKernel (fun t => decide (t = 5 ∨ t = 6)) [5, 6]).hubs 1).p_waitingThreads.map
            some :=
  ⟨by decide, by decide,
    raiseEvent_postcondition 1 (hubGuard 1) _ _ (by decide) (by decide)⟩

/-- C3 as stated fails: `raiseEvent` followed by the sleeping path of `blockCurrentThread`
reaches a state of hub 1 in which the event queue and the waiter list are both non-empty,
so "never both non-empty" does not hold in every reachable state. -/
theorem reachable_both_nonempty_counterexample :
    ¬ ∀ k : Kernel, Reachable 1 k →
      (k.hubs 1)._eventQueue = [] ∨ (k.hubs 1).p_waitingThreads = [] := by
  intro hall
  have hreach : Reachable 1 raisedBlockedKernel :=
    .block raisedKernel raisedBlockedKernel (hubGuard 1)
      { mutex := .hub 1, isLocked := false } { mutex := .scheduleLock, isLocked := true }
      (.raise bootKernel raisedKernel (hubGuard 1)
        (mkOperation .AsyncObserve (.PostEventCompleter 1 10)) (.fresh bootKernel rfl) rfl)
      rfl
  have hq : (raisedBlockedKernel.hubs 1)._eventQueue ≠ [] := by decide
  have hw : (raisedBlockedKernel.hubs 1).p_waitingThreads ≠ [] := by decide
  rcases hall raisedBlockedKernel hreach with h1 | h1
  · exact hq h1
  · exact hw h1

/-- C3, amended (invariant I3). In every state reachable from a freshly constructed hub by
`raiseEvent`, `dequeueEvent` and sleeping-path `blockCurrentThread` calls, where
`blockCurrentThread` is only called after `hasEvent` has returned `false`, the event queue
and the waiter list are never both non-empty. -/
theorem queue_or_waiters_empty (h : HubId) (k : Kernel) (hreach : ReachableChecked h k) :
    (k.hubs h)._eventQueue = [] ∨ (k.hubs h).p_waitingThreads = [] := by
  induction hreach with
  | fresh k hfresh => left; rw [hfresh]; rfl
  | raise k k1 guard operation _ hrun _ =>
    exact Or.inr (raiseEvent_ok_inv h guard operation k k1 hrun).2
  | dequeue k k1 guard operation _ hrun ih =>
    obtain ⟨hq, hw⟩ := dequeueEvent_ok_inv h guard operation k k1 hrun
    rcases ih with hempty | hnone
    · rw [hempty] at hq
      cases hq
    · exact Or.inr (hw.trans hnone)
  | block k k1 guard guard1 schedule_guard _ hhas hrun _ =>
    obtain ⟨hq, -⟩ := blockCurrentThread_scheduled_inv h guard guard1 schedule_guard k k1 hrun
    exact Or.inl (hq.trans (hasEvent_false_inv h guard k hhas))
  | other k k1 _ hsame ih => rw [hsame]; exact ih

/-- Witness of the amended C3: the state reached from the fresh hub 1 of `bootKernel` by a
`blockCurrentThread` that follows a `hasEvent` returning `false`. -/
theorem queue_or_waiters_empty_witness :
    ReachableChecked 1 blockedKernel ∧
    ((blockedKernel.hubs 1)._eventQueue = [] ∨ (blockedKernel.hubs 1).p_waitingThreads = []) :=
  ⟨.block bootKernel blockedKernel (hubGuard 1) { mutex := .hub 1, isLocked := false }
      { mutex := .scheduleLock, isLocked := true } (.fresh bootKernel rfl) rfl rfl,
    queue_or_waiters_empty 1 blockedKernel
      (.block bootKernel blockedKernel (hubGuard 1) { mutex := .hub 1, isLocked := false }
        { mutex := .scheduleLock, isLocked := true } (.fresh bootKernel rfl) rfl rfl)⟩

/-- C4 as stated fails: hub 2 of `bootKernel` has been destroyed, the weak pointer of a
`PostEventCompleter` to it does not upgrade, and `complete` does not return normally. -/
theorem complete_dead_hub_counterexample :
    WeakPtr.grab bootKernel.hubAlive 2 = none ∧
    ¬ ∃ k1, AsyncOperation.complete
      (mkOperation .AsyncObserve (.PostEventCompleter 2 10)) bootKernel = .ok k1 := by
  refine ⟨by decide, ?_⟩
  rintro ⟨k1, hrun⟩
  have herr : AsyncOperation.complete
      (mkOperation .AsyncObserve (.PostEventCompleter 2 10)) bootKernel =
        .error (.assertion 98) := rfl
  rw [herr] at hrun
  cases hrun

/-- C4, amended. When the completer is a `PostEventCompleter` whose hub pointer fails to
upgrade, or a `ReturnFromForkCompleter` whose thread pointer fails to upgrade, `complete`
stops on the assertion that follows the upgrade: on line 98 for the hub, on line 105 for
the thread. It yields no successor state, so no event queue, waiter list or `scheduleQueue`
is written. -/
theorem complete_dead_referent_halts (operation : AsyncOperation) (k : Kernel)
    (hdead :
      (∃ hub s, operation.completer = .PostEventCompleter hub s ∧
        WeakPtr.grab k.hubAlive hub = none) ∨
      (∃ t, operation.completer = .ReturnFromForkCompleter t ∧
        WeakPtr.grab k.threadAlive t = none)) :
    (∀ hub s, operation.completer = .PostEventCompleter hub s →
      AsyncOperation.complete operation k = .error (.assertion 98)) ∧
    (∀ t, operation.completer = .ReturnFromForkCompleter t →
      AsyncOperation.complete operation k = .error (.assertion 105)) ∧
    ∀ k1, AsyncOperation.complete operation k ≠ .ok k1 := by
  rcases hdead with ⟨hub, s, hc, hgrab⟩ | ⟨t, hc, hgrab⟩
  · have herr : AsyncOperation.complete operation k = .error (.assertion 98) := by
      simp [AsyncOperation.complete, hc, hgrab]
    refine ⟨fun _ _ _ => herr, ?_, ?_⟩
    · intro t ht
      rw [hc] at ht
      cases ht
    · intro k1 hk
      rw [herr] at hk
      cases hk
  · have herr : AsyncOperation.complete operation k = .error (.assertion 105) := by
      simp [AsyncOperation.complete, hc, hgrab]
    refine ⟨?_, fun _ _ => herr, ?_⟩
    · intro hub s hs
      rw [hc] at hs
      cases hs
    · intro k1 hk
      rw [herr] at hk
      cases hk

/-- Witness of the amended C4: a `ReturnFromForkCompleter` for the destroyed thread 9. -/
theorem complete_dead_referent_halts_witness :
    ((∃ hub s, (mkOperation .AsyncObserve (.ReturnFromForkCompleter 9)).completer =
          .PostEventCompleter hub s ∧ WeakPtr.grab bootKernel.hubAlive hub = none) ∨
      (∃ t, (mkOperation .AsyncObserve (.ReturnFromForkCompleter 9)).completer =
          .ReturnFromForkCompleter t ∧ WeakPtr.grab bootKernel.threadAlive t = none)) ∧
    AsyncOperation.complete (mkOperation .AsyncObserve (.ReturnFromForkCompleter 9))
      bootKernel = .error (.assertion 105) :=
  ⟨Or.inr ⟨9, rfl, by decide⟩,
    (complete_dead_referent_halts (mkOperation .AsyncObserve (.ReturnFromForkCompleter 9))
      bootKernel (Or.inr ⟨9, rfl, by decide⟩)).2.1 9 rfl⟩

/-- C5 (dispatch to a live hub). When the completer is a `PostEventCompleter` whose hub is
alive, `complete` returns, and so does `raiseEvent` of the same operation on that hub under
a guard holding its lock; both leave the same hubs and the same `scheduleQueue`: the
operation is at the tail of the hub's event queue, its waiter list is empty, the upgrade
result of each former waiter has been passed to the scheduler in waiter order, and every
other hub is as before. -/
theorem complete_posts_to_live_hub (operation : AsyncOperation) (k : Kernel)
    (hub : HubId) (s : SubmitInfo)
    (hc : operation.completer = .PostEventCompleter hub s) (hlive : k.hubAlive hub = true) :
    ∃ k1 k2, AsyncOperation.complete operation k = .ok k1 ∧
      EventHub.raiseEvent hub (hubGuard hub) operation k = .ok k2 ∧
      k1.hubs = k2.hubs ∧ k1.scheduleQueue = k2.scheduleQueue ∧
      (k1.hubs hub)._eventQueue = (k.hubs hub)._eventQueue ++ [operation] ∧
      (k1.hubs hub).p_waitingThreads = [] ∧
      k1.scheduleQueue = k.scheduleQueue ++
        (k.hubs hub).p_waitingThreads.map (WeakPtr.grab k.threadAlive) ∧
      ∀ h1, h1 ≠ hub → k1.hubs h1 = k.hubs h1 := by
  have hg : (hubGuard hub).protects (.hub hub) = true := by simp [hubGuard, Guard.protects]
  obtain ⟨k2, hrun2, hq2, he2, hw2, hf2, -⟩ := raiseEvent_spec hub (hubGuard hub) operation k hg
  obtain ⟨k1, hrun1, hq1, he1, hw1, hf1, -⟩ :=
    raiseEvent_spec hub (hubGuard hub) operation (k.logLock (.acquire (.hub hub))) hg
  refine ⟨(hubGuard hub).destroy k1, k2, ?_, hrun2, ?_, ?_, ?_, ?_, ?_, ?_⟩
  · simp only [AsyncOperation.complete, hc, WeakPtr.grab, hlive, ↓reduceIte, Guard.acquire]
    have hrun : EventHub.raiseEvent hub { mutex := .hub hub, isLocked := true } operation
        (k.logLock (.acquire (.hub hub))) = .ok k1 := hrun1
    rw [hrun]
    rfl
  · funext h1
    by_cases hh : h1 = hub
    · subst hh
      have ha : (k1.hubs h1)._eventQueue = (k2.hubs h1)._eventQueue := by
        rw [he1, he2]; rfl
      have hb : (k1.hubs h1).p_waitingThreads = (k2.hubs h1).p_waitingThreads := by
        rw [hw1, hw2]
      have hd : ((hubGuard h1).destroy k1).hubs h1 = k1.hubs h1 := rfl
      rw [hd]
      cases hx : k1.hubs h1
      cases hy : k2.hubs h1
      simp_all
    · have hd : ((hubGuard hub).destroy k1).hubs h1 = k1.hubs h1 := rfl
      rw [hd, hf1 h1 hh, hf2 h1 hh]
      rfl
  · have hd : ((hubGuard hub).destroy k1).scheduleQueue = k1.scheduleQueue := rfl
    rw [hd, hq1, hq2]
    rfl
  · exact he1
  · exact hw1
  · exact hq1
  · intro h1 hh
    exact hf1 h1 hh

/-- Witness of C5: an operation completing into the live hub 1, on which thread 5 sleeps. -/
theorem complete_posts_to_live_hub_witness :
    (mkOperation .AsyncObserve (.PostEventCompleter 1 10)).completer =
      .PostEventCompleter 1 10 ∧
    (waitersKernel (fun t => decide (t = 5)) [5]).hubAlive 1 = true ∧
    ∃ k1 k2,
      AsyncOperation.complete (mkOperation .AsyncObserve (.PostEventCompleter 1 10))
        (waitersKernel (fun t => decide (t = 5)) [5]) = .ok k1 ∧
      EventHub.raiseEvent 1 (hubGuard 1) (mkOperation .AsyncObserve (.PostEventCompleter 1 10))
        (waitersKernel (fun t => decide (t = 5)) [5]) = .ok k2 ∧
      k1.hubs = k2.hubs ∧ k1.scheduleQueue = k2.scheduleQueue ∧
      (k1.hubs 1)._eventQueue =
        ((waitersKernel (fun t => decide (t = 5)) [5]).hubs 1)._eventQueue ++
          [mkOperation .AsyncObserve (.PostEventCompleter 1 10)] ∧
      (k1.hubs 1).p_waitingThreads = [] ∧
      k1.scheduleQueue = (waitersKernel (fun t => decide (t = 5)) [5]).scheduleQueue ++
        ((waitersKernel (fun t => decide (t = 5)) [5]).hubs 1).p_waitingThreads.map
          (WeakPtr.grab (waitersKernel (fun t => decide (t = 5)) [5]).threadAlive) ∧
      ∀ h1, h1 ≠ 1 → k1.hubs h1 = (waitersKernel (fun t => decide (t = 5)) [5]).hubs h1 :=
  ⟨rfl, rfl,
    complete_posts_to_live_hub (mkOperation .AsyncObserve (.PostEventCompleter 1 10))
      (waitersKernel (fun t => decide (t = 5)) [5]) 1 10 rfl rfl⟩

/-- C6 (discard). When the completer is the `NullCompleter`, `complete` returns and the
kernel state is the one it was called in: no event queue, no waiter list and not the
`scheduleQueue` has changed. -/
theorem complete_null_completer (operation : AsyncOperation) (k : Kernel)
    (hc : operation.completer = .NullCompleter) :
    AsyncOperation.complete operation k = .ok k := by
  simp [AsyncOperation.complete, hc]

/-- Witness of C6: a discarded operation completing in a kernel with a sleeper on hub 1. -/
theorem complete_null_completer_witness :
    (mkOperation .AsyncIrq .NullCompleter).completer = .NullCompleter ∧
    AsyncOperation.complete (mkOperation .AsyncIrq .NullCompleter)
      (waitersKernel (fun t => decide (t = 5)) [5]) =
        .ok (waitersKernel (fun t => decide (t = 5)) [5]) :=
  ⟨rfl, complete_null_completer (mkOperation .AsyncIrq .NullCompleter)
    (waitersKernel (fun t => decide (t = 5)) [5]) rfl⟩

/-- C7 (resume of a forked thread). When the completer is a `ReturnFromForkCompleter` whose
thread is alive, `complete` returns; `scheduleQueue` is the old one followed by exactly that
thread, and every hub (event queue and waiter list) is as before. -/
theorem complete_return_from_fork (operation : AsyncOperation) (k : Kernel) (t : ThreadId)
    (hc : operation.completer = .ReturnFromForkCompleter t) (hlive : k.threadAlive t = true) :
    ∃ k1, AsyncOperation.complete operation k = .ok k1 ∧
      k1.scheduleQueue = k.scheduleQueue ++ [some t] ∧
      k1.hubs = k.hubs := by
  refine ⟨(Guard.acquire .scheduleLock k).1.destroy
    (enqueueInSchedule (Guard.acquire .scheduleLock k).1 (some t)
      (Guard.acquire .scheduleLock k).2), ?_, rfl, rfl⟩
  simp [AsyncOperation.complete, hc, WeakPtr.grab, hlive]

/-- Witness of C7: the live thread 5 is resumed while it also sleeps on hub 1. -/
theorem complete_return_from_fork_witness :
    (mkOperation .AsyncObserve (.ReturnFromForkCompleter 5)).completer =
      .ReturnFromForkCompleter 5 ∧
    (waitersKernel (fun t => decide (t = 5)) [5]).threadAlive 5 = true ∧
    ∃ k1, AsyncOperation.complete (mkOperation .AsyncObserve (.ReturnFromForkCompleter 5))
        (waitersKernel (fun t => decide (t = 5)) [5]) = .ok k1 ∧
      k1.scheduleQueue = (waitersKernel (fun t => decide (t = 5)) [5]).scheduleQueue ++ [some 5] ∧
      k1.hubs = (waitersKernel (fun t => decide (t = 5)) [5]).hubs :=
  ⟨rfl, rfl,
    complete_return_from_fork (mkOperation .AsyncObserve (.ReturnFromForkCompleter 5))
      (waitersKernel (fun t => decide (t = 5)) [5]) 5 rfl rfl⟩

/-- C8 fails on the code. Hub 1 has the waiters 5 (alive) and 9 (destroyed); `raiseEvent`
passes the result of every upgrade to `enqueueInSchedule` without testing it, so the null
pointer obtained for waiter 9 is put on `scheduleQueue` after thread 5. -/
theorem raiseEvent_enqueues_null_for_dead_waiter :
    WeakPtr.grab (waitersKernel (fun t => decide (t = 5)) [5, 9]).threadAlive 9 = none ∧
    ∃ k1, EventHub.raiseEvent 1 (hubGuard 1)
        (mkOperation .AsyncObserve (.PostEventCompleter 1 10))
        (waitersKernel (fun t => decide (t = 5)) [5, 9]) = .ok k1 ∧
      k1.scheduleQueue = [some 5, none] := by
  refine ⟨by decide, ?_⟩
  obtain ⟨k1, hrun, hq, -⟩ := raiseEvent_spec 1 (hubGuard 1)
    (mkOperation .AsyncObserve (.PostEventCompleter 1 10))
    (waitersKernel (fun t => decide (t = 5)) [5, 9]) (by decide)
  refine ⟨k1, hrun, ?_⟩
  rw [hq]
  decide

/-- C9 (dequeue on an empty hub). When the event queue of the hub is empty, `hasEvent`
under the hub lock returns `false`, and `dequeueEvent` stops fatally: on the removal from
the empty queue when the guard protects the hub lock, on the guard assertion otherwise. It
returns no operation and no successor state. -/
theorem dequeueEvent_empty_fatal (h : HubId) (guard : Guard) (k : Kernel)
    (hempty : (k.hubs h)._eventQueue = []) :
    (guard.protects (.hub h) = true →
      EventHub.hasEvent h guard k = .ok false ∧
      EventHub.dequeueEvent h guard k = .error .emptyRemove) ∧
    (guard.protects (.hub h) = false →
      EventHub.dequeueEvent h guard k = .error (.assertion 142)) ∧
    ∀ operation k1, EventHub.dequeueEvent h guard k ≠ .ok (operation, k1) := by
  refine ⟨?_, ?_, ?_⟩
  · intro hg
    simp [EventHub.hasEvent, EventHub.dequeueEvent, hg, hempty, LinkedList.empty,
      LinkedList.removeFront]
  · intro hg
    simp [EventHub.dequeueEvent, hg]
  · intro operation k1 hrun
    have hq := (dequeueEvent_ok_inv h guard operation k k1 hrun).1
    rw [hempty] at hq
    cases hq

/-- Witness of C9: the freshly constructed hub 1 of `bootKernel`. -/
theorem dequeueEvent_empty_fatal_witness :
    (bootKernel.hubs 1)._eventQueue = [] ∧
    ((hubGuard 1).protects (.hub 1) = true →
      EventHub.hasEvent 1 (hubGuard 1) bootKernel = .ok false ∧
      EventHub.dequeueEvent 1 (hubGuard 1) bootKernel = .error .emptyRemove) ∧
    ((hubGuard 1).protects (.hub 1) = false →
      EventHub.dequeueEvent 1 (hubGuard 1) bootKernel = .error (.assertion 142)) ∧
    ∀ operation k1, EventHub.dequeueEvent 1 (hubGuard 1) bootKernel ≠ .ok (operation, k1) :=
  ⟨rfl, dequeueEvent_empty_fatal 1 (hubGuard 1) bootKernel rfl⟩

/-- C10 (ring-item rejection). For every operation of class `AsyncRingItem`, whatever its
fields and completer, `getEvent` stops on the assertion of event.cpp:80 and yields no event
record. -/
theorem ringItem_getEvent_fatal (op : AsyncOperation) (hcls : op.cls = .AsyncRingItem) :
    op.getEvent = .error (.assertion 80) ∧ ∀ event, op.getEvent ≠ .ok event := by
  have herr : op.getEvent = .error (.assertion 80) := by
    simp [AsyncOperation.getEvent, hcls, AsyncRingItem.getEvent]
  refine ⟨herr, ?_⟩
  intro event hev
  rw [herr] at hev
  cases hev

/-- Witness of C10: a ring item with a `PostEventCompleter` to the live hub 1. -/
theorem ringItem_getEvent_fatal_witness :
    (mkOperation .AsyncRingItem (.PostEventCompleter 1 10)).cls = .AsyncRingItem ∧
    (mkOperation .AsyncRingItem (.PostEventCompleter 1 10)).getEvent = .error (.assertion 80) ∧
    ∀ event, (mkOperation .AsyncRingItem (.PostEventCompleter 1 10)).getEvent ≠ .ok event :=
  ⟨rfl, ringItem_getEvent_fatal (mkOperation .AsyncRingItem (.PostEventCompleter 1 10)) rfl⟩

/-- C11 (submit-info echo). For every operation whose class is not `AsyncRingItem` and
whose completer is a `PostEventCompleter` carrying `s`, `getEvent` returns a record, and the
`submitInfo` of that record is `s`, whatever the other fields of the operation are. -/
theorem getEvent_echoes_submitInfo (op : AsyncOperation) (hub : HubId) (s : SubmitInfo)
    (hcls : op.cls ≠ .AsyncRingItem) (hc : op.completer = .PostEventCompleter hub s) :
    ∃ event, op.getEvent = .ok event ∧ event.submitInfo = s := by
  cases hk : op.cls
  case AsyncRingItem => exact absurd hk hcls
  case AsyncRecvString =>
    cases ht : op.type <;>
      simp [AsyncOperation.getEvent, hk, AsyncRecvString.getEvent, ht, hc,
        AsyncCompleter.getPostEventCompleter, AsyncEvent.new]
  all_goals
    simp [AsyncOperation.getEvent, hk, AsyncHandleLoad.getEvent, AsyncInitiateLoad.getEvent,
      AsyncObserve.getEvent, AsyncSendString.getEvent, AsyncSendDescriptor.getEvent,
      AsyncRecvDescriptor.getEvent, AsyncAccept.getEvent, AsyncConnect.getEvent,
      AsyncIrq.getEvent, hc, AsyncCompleter.getPostEventCompleter, AsyncEvent.new]

/-- Witness of C11: a to-ring `AsyncRecvString` posted to hub 1 with submit-info 77. -/
theorem getEvent_echoes_submitInfo_witness :
    ({ mkOperation .AsyncRecvString (.PostEventCompleter 1 77) with
        type := .kTypeToRing, offset := 3 } : AsyncOperation).cls ≠ .AsyncRingItem ∧
    ({ mkOperation .AsyncRecvString (.PostEventCompleter 1 77) with
        type := .kTypeToRing, offset := 3 } : AsyncOperation).completer =
      .PostEventCompleter 1 77 ∧
    ∃ event,
      ({ mkOperation .AsyncRecvString (.PostEventCompleter 1 77) with
          type := .kTypeToRing, offset := 3 } : AsyncOperation).getEvent = .ok event ∧
      event.submitInfo = 77 :=
  ⟨by decide, rfl,
    getEvent_echoes_submitInfo
      { mkOperation .AsyncRecvString (.PostEventCompleter 1 77) with
        type := .kTypeToRing, offset := 3 } 1 77 (by decide) rfl⟩

/-- C12 as stated fails: the record that `getEvent` returns for an `AsyncObserve` operation
has none of `offset`, `length`, `msgRequest`, `msgSequence`, `handle` equal to zero; the
constructor of `AsyncEvent` and `AsyncObserve::getEvent` never write them. -/
theorem observe_payload_not_zero_counterexample :
    ∃ event, (mkOperation .AsyncObserve (.PostEventCompleter 1 10)).getEvent = .ok event ∧
      event.offset ≠ some 0 ∧ event.length ≠ some 0 ∧ event.msgRequest ≠ some 0 ∧
      event.msgSequence ≠ some 0 ∧ event.handle ≠ some 0 :=
  ⟨_, rfl, by decide, by decide, by decide, by decide, by decide⟩

/-- C12, amended. For every operation whose class is not `AsyncRingItem` and whose completer
is a `PostEventCompleter`, `getEvent` returns a record in which every payload member that
the specification lists as meaningful for the kind holds the value of the operation, and
every other payload member has not been written (it is not set to zero). -/
theorem getEvent_unused_payload_unwritten (op : AsyncOperation) (hub : HubId) (s : SubmitInfo)
    (hcls : op.cls ≠ .AsyncRingItem) (hc : op.completer = .PostEventCompleter hub s) :
    ∃ event, op.getEvent = .ok event ∧
      event.offset = (if event.type.specKind.meaningfulOffset then some op.offset else none) ∧
      event.length = (if event.type.specKind.meaningfulLength then some op.length else none) ∧
      event.msgRequest =
        (if event.type.specKind.meaningfulMsg then some op.msgRequest else none) ∧
      event.msgSequence =
        (if event.type.specKind.meaningfulMsg then some op.msgSequence else none) ∧
      event.handle = (if event.type.specKind.meaningfulHandle then some op.handle else none) := by
  cases hk : op.cls
  case AsyncRingItem => exact absurd hk hcls
  case AsyncRecvString =>
    cases ht : op.type <;>
      simp [AsyncOperation.getEvent, hk, AsyncRecvString.getEvent, ht, hc,
        AsyncCompleter.getPostEventCompleter, AsyncEvent.new, EventType.specKind,
        SpecKind.meaningfulOffset, SpecKind.meaningfulLength, SpecKind.meaningfulMsg,
        SpecKind.meaningfulHandle]
  all_goals
    simp [AsyncOperation.getEvent, hk, AsyncHandleLoad.getEvent, AsyncInitiateLoad.getEvent,
      AsyncObserve.getEvent, AsyncSendString.getEvent, AsyncSendDescriptor.getEvent,
      AsyncRecvDescriptor.getEvent, AsyncAccept.getEvent, AsyncConnect.getEvent,
      AsyncIrq.getEvent, hc, AsyncCompleter.getPostEventCompleter, AsyncEvent.new,
      EventType.specKind, SpecKind.meaningfulOffset, SpecKind.meaningfulLength,
      SpecKind.meaningfulMsg, SpecKind.meaningfulHandle]

/-- Witness of the amended C12: an `AsyncHandleLoad` with offset 4096 and length 1024. -/
theorem getEvent_unused_payload_unwritten_witness :
    ({ mkOperation .AsyncHandleLoad (.PostEventCompleter 1 11) with
        offset := 4096, length := 1024 } : AsyncOperation).cls ≠ .AsyncRingItem ∧
    ({ mkOperation .AsyncHandleLoad (.PostEventCompleter 1 11) with
        offset := 4096, length := 1024 } : AsyncOperation).completer =
      .PostEventCompleter 1 11 ∧
    ∃ event,
      ({ mkOperation .AsyncHandleLoad (.PostEventCompleter 1 11) with
          offset := 4096, length := 1024 } : AsyncOperation).getEvent = .ok event ∧
      event.offset = (if event.type.specKind.meaningfulOffset then
        some ({ mkOperation .AsyncHandleLoad (.PostEventCompleter 1 11) with
          offset := 4096, length := 1024 } : AsyncOperation).offset else none) ∧
      event.length = (if event.type.specKind.meaningfulLength then
        some ({ mkOperation .AsyncHandleLoad (.PostEventCompleter 1 11) with
          offset := 4096, length := 1024 } : AsyncOperation).length else none) ∧
      event.msgRequest = (if event.type.specKind.meaningfulMsg then
        some ({ mkOperation .AsyncHandleLoad (.PostEventCompleter 1 11) with
          offset := 4096, length := 1024 } : AsyncOperation).msgRequest else none) ∧
      event.msgSequence = (if event.type.specKind.meaningfulMsg then
        some ({ mkOperation .AsyncHandleLoad (.PostEventCompleter 1 11) with
          offset := 4096, length := 1024 } : AsyncOperation).msgSequence else none) ∧
      event.handle = (if event.type.specKind.meaningfulHandle then
        some ({ mkOperation .AsyncHandleLoad (.PostEventCompleter 1 11) with
          offset := 4096, length := 1024 } : AsyncOperation).handle else none) :=
  ⟨by decide, rfl,
    getEvent_unused_payload_unwritten
      { mkOperation .AsyncHandleLoad (.PostEventCompleter 1 11) with
        offset := 4096, length := 1024 } 1 11 (by decide) rfl⟩

/-- C13 (RecvString projection). For an `AsyncRecvString` posted to a hub, `getEvent`
returns, for the normal type, the record tagged `kEventRecvString` with the operation's
`error`, `msgRequest`, `msgSequence` and `length`, and for the to-ring type the record
tagged `kEventRecvStringToRing` with the same four members and `offset`. Only posted
operations have a projected record, and for the normal type the result does not change when
the operation's `offset` is replaced. -/
theorem recvString_projection (op : AsyncOperation) (hcls : op.cls = .AsyncRecvString) :
    (∀ hub s, op.completer = .PostEventCompleter hub s →
      (op.type = .kTypeNormal → op.getEvent = .ok
        { type := .kEventRecvString, submitInfo := s, error := some op.error,
          offset := none, length := some op.length, msgRequest := some op.msgRequest,
          msgSequence := some op.msgSequence, handle := none }) ∧
      (op.type = .kTypeToRing → op.getEvent = .ok
        { type := .kEventRecvStringToRing, submitInfo := s, error := some op.error,
          offset := some op.offset, length := some op.length,
          msgRequest := some op.msgRequest, msgSequence := some op.msgSequence,
          handle := none })) ∧
    (∀ event, op.getEvent = .ok event → ∃ hub s, op.completer = .PostEventCompleter hub s) ∧
    (op.type = .kTypeNormal →
      ∀ o, AsyncOperation.getEvent { op with offset := o } = op.getEvent) := by
  refine ⟨?_, ?_, ?_⟩
  · intro hub s hc
    constructor <;> intro ht <;>
      simp [AsyncOperation.getEvent, hcls, AsyncRecvString.getEvent, ht, hc,
        AsyncCompleter.getPostEventCompleter, AsyncEvent.new]
  · intro event hev
    cases hc : op.completer with
    | PostEventCompleter hub s => exact ⟨hub, s, rfl⟩
    | NullCompleter =>
      cases ht : op.type <;>
        simp [AsyncOperation.getEvent, hcls, AsyncRecvString.getEvent, ht, hc,
          AsyncCompleter.getPostEventCompleter] at hev
    | ReturnFromForkCompleter t =>
      cases ht : op.type <;>
        simp [AsyncOperation.getEvent, hcls, AsyncRecvString.getEvent, ht, hc,
          AsyncCompleter.getPostEventCompleter] at hev
  · intro ht o
    simp [AsyncOperation.getEvent, hcls, AsyncRecvString.getEvent, ht]

/-- Witness of C13: a to-ring `AsyncRecvString` with non-zero fields, posted to hub 1. -/
theorem recvString_projection_witness :
    (busyOperation .AsyncRecvString (.PostEventCompleter 1 21) .kTypeToRing).cls =
      .AsyncRecvString ∧
    (busyOperation .AsyncRecvString (.PostEventCompleter 1 21) .kTypeToRing).getEvent = .ok
      { type := .kEventRecvStringToRing, submitInfo := 21, error := some (.kErrOther 3),
        offset := some 4096, length := some 1024, msgRequest := some 7,
        msgSequence := some (-8), handle := none } :=
  ⟨rfl, ((recvString_projection
      (busyOperation .AsyncRecvString (.PostEventCompleter 1 21) .kTypeToRing) rfl).1
        1 21 rfl).2 rfl⟩

/-- C14 (MemoryLoad projection). For an `AsyncHandleLoad` posted to a hub, `getEvent` returns
the record tagged `kEventMemoryLoad` whose error is `kErrSuccess` and whose `offset` and
`length` are those of the operation; the result does not change when the operation's stored
error is replaced. -/
theorem handleLoad_projection (op : AsyncOperation) (hub : HubId) (s : SubmitInfo)
    (hcls : op.cls = .AsyncHandleLoad) (hc : op.completer = .PostEventCompleter hub s) :
    op.getEvent = .ok
      { type := .kEventMemoryLoad, submitInfo := s, error := some .kErrSuccess,
        offset := some op.offset, length := some op.length, msgRequest := none,
        msgSequence := none, handle := none } ∧
    ∀ e, AsyncOperation.getEvent { op with error := e } = op.getEvent := by
  constructor
  · simp [AsyncOperation.getEvent, hcls, AsyncHandleLoad.getEvent, hc,
      AsyncCompleter.getPostEventCompleter, AsyncEvent.new]
  · intro e
    simp [AsyncOperation.getEvent, hcls, AsyncHandleLoad.getEvent]

/-- Witness of C14: an `AsyncHandleLoad` whose stored error is not success. -/
theorem handleLoad_projection_witness :
    (busyOperation .AsyncHandleLoad (.PostEventCompleter 1 11) .kTypeNormal).cls =
      .AsyncHandleLoad ∧
    (busyOperation .AsyncHandleLoad (.PostEventCompleter 1 11) .kTypeNormal).completer =
      .PostEventCompleter 1 11 ∧
    (busyOperation .AsyncHandleLoad (.PostEventCompleter 1 11) .kTypeNormal).getEvent = .ok
      { type := .kEventMemoryLoad, submitInfo := 11, error := some .kErrSuccess,
        offset := some 4096, length := some 1024, msgRequest := none,
        msgSequence := none, handle := none } :=
  ⟨rfl, rfl, (handleLoad_projection
    (busyOperation .AsyncHandleLoad (.PostEventCompleter 1 11) .kTypeNormal) 1 11 rfl rfl).1⟩

/-- C15 (Send projection). For an `AsyncSendString`, respectively an `AsyncSendDescriptor`,
posted to a hub, `getEvent` returns the record tagged `kEventSendString`, respectively
`kEventSendDescriptor`, whose error is the error of the operation, whatever that error is. -/
theorem send_projection (op : AsyncOperation) (hub : HubId) (s : SubmitInfo)
    (hc : op.completer = .PostEventCompleter hub s) :
    (op.cls = .AsyncSendString → op.getEvent = .ok
      { type := .kEventSendString, submitInfo := s, error := some op.error, offset := none,
        length := none, msgRequest := none, msgSequence := none, handle := none }) ∧
    (op.cls = .AsyncSendDescriptor → op.getEvent = .ok
      { type := .kEventSendDescriptor, submitInfo := s, error := some op.error, offset := none,
        length := none, msgRequest := none, msgSequence := none, handle := none }) := by
  constructor <;> intro hcls
  · simp [AsyncOperation.getEvent, hcls, AsyncSendString.getEvent, hc,
      AsyncCompleter.getPostEventCompleter, AsyncEvent.new]
  · simp [AsyncOperation.getEvent, hcls, AsyncSendDescriptor.getEvent, hc,
      AsyncCompleter.getPostEventCompleter, AsyncEvent.new]

/-- Witness of C15: an `AsyncSendString` that failed with error code 3. -/
theorem send_projection_witness :
    (busyOperation .AsyncSendString (.PostEventCompleter 1 12) .kTypeNormal).completer =
      .PostEventCompleter 1 12 ∧
    (busyOperation .AsyncSendString (.PostEventCompleter 1 12) .kTypeNormal).getEvent = .ok
      { type := .kEventSendString, submitInfo := 12, error := some (.kErrOther 3),
        offset := none, length := none, msgRequest := none, msgSequence := none,
        handle := none } :=
  ⟨rfl, (send_projection
    (busyOperation .AsyncSendString (.PostEventCompleter 1 12) .kTypeNormal) 1 12 rfl).1 rfl⟩

/-- C16 (RecvDescriptor projection). For an `AsyncRecvDescriptor` posted to a hub, `getEvent`
returns the record tagged `kEventRecvDescriptor` with the operation's `error`,
`msgRequest`, `msgSequence` and `handle`. -/
theorem recvDescriptor_projection (op : AsyncOperation) (hub : HubId) (s : SubmitInfo)
    (hcls : op.cls = .AsyncRecvDescriptor) (hc : op.completer = .PostEventCompleter hub s) :
    op.getEvent = .ok
      { type := .kEventRecvDescriptor, submitInfo := s, error := some op.error,
        offset := none, length := none, msgRequest := some op.msgRequest,
        msgSequence := some op.msgSequence, handle := some op.handle } := by
  simp [AsyncOperation.getEvent, hcls, AsyncRecvDescriptor.getEvent, hc,
    AsyncCompleter.getPostEventCompleter, AsyncEvent.new]

/-- Witness of C16: an `AsyncRecvDescriptor` with non-zero fields. -/
theorem recvDescriptor_projection_witness :
    (busyOperation .AsyncRecvDescriptor (.PostEventCompleter 1 13) .kTypeNormal).cls =
      .AsyncRecvDescriptor ∧
    (busyOperation .AsyncRecvDescriptor (.PostEventCompleter 1 13) .kTypeNormal).completer =
      .PostEventCompleter 1 13 ∧
    (busyOperation .AsyncRecvDescriptor (.PostEventCompleter 1 13) .kTypeNormal).getEvent = .ok
      { type := .kEventRecvDescriptor, submitInfo := 13, error := some (.kErrOther 3),
        offset := none, length := none, msgRequest := some 7, msgSequence := some (-8),
        handle := some 42 } :=
  ⟨rfl, rfl, recvDescriptor_projection
    (busyOperation .AsyncRecvDescriptor (.PostEventCompleter 1 13) .kTypeNormal) 1 13 rfl rfl⟩

/-- C17 (Accept and Connect projection). For an `AsyncAccept`, respectively an
`AsyncConnect`, posted to a hub, `getEvent` returns the record tagged `kEventAccept`,
respectively `kEventConnect`, whose error is `kErrSuccess` and whose `handle` is the handle
of the operation; the result does not change when the operation's stored error is
replaced. -/
theorem accept_connect_projection (op : AsyncOperation) (hub : HubId) (s : SubmitInfo)
    (hc : op.completer = .PostEventCompleter hub s) :
    (op.cls = .AsyncAccept → op.getEvent = .ok
      { type := .kEventAccept, submitInfo := s, error := some .kErrSuccess, offset := none,
        length := none, msgRequest := none, msgSequence := none,
        handle := some op.handle }) ∧
    (op.cls = .AsyncConnect → op.getEvent = .ok
      { type := .kEventConnect, submitInfo := s, error := some .kErrSuccess, offset := none,
        length := none, msgRequest := none, msgSequence := none,
        handle := some op.handle }) ∧
    ((op.cls = .AsyncAccept ∨ op.cls = .AsyncConnect) →
      ∀ e, AsyncOperation.getEvent { op with error := e } = op.getEvent) := by
  refine ⟨?_, ?_, ?_⟩
  · intro hcls
    simp [AsyncOperation.getEvent, hcls, AsyncAccept.getEvent, hc,
      AsyncCompleter.getPostEventCompleter, AsyncEvent.new]
  · intro hcls
    simp [AsyncOperation.getEvent, hcls, AsyncConnect.getEvent, hc,
      AsyncCompleter.getPostEventCompleter, AsyncEvent.new]
  · rintro (hcls | hcls) e
    · simp [AsyncOperation.getEvent, hcls, AsyncAccept.getEvent]
    · simp [AsyncOperation.getEvent, hcls, AsyncConnect.getEvent]

/-- Witness of C17: an `AsyncConnect` with handle 42 whose stored error is not success. -/
theorem accept_connect_projection_witness :
    (busyOperation .AsyncConnect (.PostEventCompleter 1 14) .kTypeNormal).completer =
      .PostEventCompleter 1 14 ∧
    (busyOperation .AsyncConnect (.PostEventCompleter 1 14) .kTypeNormal).getEvent = .ok
      { type := .kEventConnect, submitInfo := 14, error := some .kErrSuccess, offset := none,
        length := none, msgRequest := none, msgSequence := none, handle := some 42 } :=
  ⟨rfl, (accept_connect_projection
    (busyOperation .AsyncConnect (.PostEventCompleter 1 14) .kTypeNormal) 1 14 rfl).2.1 rfl⟩

/-- C18 as stated fails for Join: no operation has a record tagged with the Join kind as its
projection; `event.cpp` has neither a Join tag nor a class that projects to one. -/
theorem no_join_projection_counterexample :
    ¬ ∃ (op : AsyncOperation) (event : AsyncEvent),
      op.getEvent = .ok event ∧ event.type.specKind = .Join := by
  rintro ⟨op, event, -, hjoin⟩
  cases ht : event.type <;> simp [ht, EventType.specKind] at hjoin

/-- C18, amended (data-less kinds MemoryLock, Observe, Irq). For an `AsyncInitiateLoad`, an
`AsyncObserve` or an `AsyncIrq` posted to a hub, `getEvent` returns the record with the tag
of the kind (`kEventMemoryLock`, `kEventObserve`, `kEventIrq`) and error `kErrSuccess`, and
the result is the same for every operation of that class with that completer, whatever its
result fields. -/
theorem dataless_projection (op : AsyncOperation) (hub : HubId) (s : SubmitInfo)
    (hc : op.completer = .PostEventCompleter hub s) :
    (op.cls = .AsyncInitiateLoad → op.getEvent = .ok
      { type := .kEventMemoryLock, submitInfo := s, error := some .kErrSuccess,
        offset := none, length := none, msgRequest := none, msgSequence := none,
        handle := none }) ∧
    (op.cls = .AsyncObserve → op.getEvent = .ok
      { type := .kEventObserve, submitInfo := s, error := some .kErrSuccess,
        offset := none, length := none, msgRequest := none, msgSequence := none,
        handle := none }) ∧
    (op.cls = .AsyncIrq → op.getEvent = .ok
      { type := .kEventIrq, submitInfo := s, error := some .kErrSuccess,
        offset := none, length := none, msgRequest := none, msgSequence := none,
        handle := none }) ∧
    ((op.cls = .AsyncInitiateLoad ∨ op.cls = .AsyncObserve ∨ op.cls = .AsyncIrq) →
      ∀ op2 : AsyncOperation, op2.cls = op.cls → op2.completer = op.completer →
        op2.getEvent = op.getEvent) := by
  refine ⟨?_, ?_, ?_, ?_⟩
  · intro hcls
    simp [AsyncOperation.getEvent, hcls, AsyncInitiateLoad.getEvent, hc,
      AsyncCompleter.getPostEventCompleter, AsyncEvent.new]
  · intro hcls
    simp [AsyncOperation.getEvent, hcls, AsyncObserve.getEvent, hc,
      AsyncCompleter.getPostEventCompleter, AsyncEvent.new]
  · intro hcls
    simp [AsyncOperation.getEvent, hcls, AsyncIrq.getEvent, hc,
      AsyncCompleter.getPostEventCompleter, AsyncEvent.new]
  · rintro (hcls | hcls | hcls) op2 hcls2 hc2
    · simp [AsyncOperation.getEvent, hcls, hcls2, AsyncInitiateLoad.getEvent, hc2]
    · simp [AsyncOperation.getEvent, hcls, hcls2, AsyncObserve.getEvent, hc2]
    · simp [AsyncOperation.getEvent, hcls, hcls2, AsyncIrq.getEvent, hc2]

/-- Witness of the amended C18: an `AsyncIrq` whose result fields are all non-zero. -/
theorem dataless_projection_witness :
    (busyOperation .AsyncIrq (.PostEventCompleter 1 15) .kTypeNormal).completer =
      .PostEventCompleter 1 15 ∧
    (busyOperation .AsyncIrq (.PostEventCompleter 1 15) .kTypeNormal).getEvent = .ok
      { type := .kEventIrq, submitInfo := 15, error := some .kErrSuccess, offset := none,
        length := none, msgRequest := none, msgSequence := none, handle := none } :=
  ⟨rfl, (dataless_projection
    (busyOperation .AsyncIrq (.PostEventCompleter 1 15) .kTypeNormal) 1 15 rfl).2.2.1 rfl⟩

/-- C19 (blocking registers the caller as last waiter). Called with interrupts disabled and
a guard holding the hub lock, the sleeping path of `blockCurrentThread` reaches the
scheduler with the hub guard unlocked and the schedule guard locked; the current thread has
been appended once at the tail of the waiter list, the event queue, the other hubs and
`scheduleQueue` are as before, and the lock trace has grown by the release of the hub lock
followed by the acquisition of `scheduleLock`. Called with interrupts enabled it stops on
the assertion of line 148, which precedes the call of `forkExecutor()`, and yields no
state. -/
theorem blockCurrentThread_sleeping_path (h : HubId) (guard : Guard) (k : Kernel) :
    (k.intsEnabled = false → guard.protects (.hub h) = true →
      ∃ k1, EventHub.blockCurrentThread h guard true k =
          .ok (.scheduled { guard with isLocked := false }
            { mutex := .scheduleLock, isLocked := true } k1) ∧
        (k1.hubs h).p_waitingThreads = (k.hubs h).p_waitingThreads ++ [k.currentThread] ∧
        (k1.hubs h)._eventQueue = (k.hubs h)._eventQueue ∧
        (∀ h1, h1 ≠ h → k1.hubs h1 = k.hubs h1) ∧
        k1.scheduleQueue = k.scheduleQueue ∧
        k1.lockTrace = k.lockTrace ++ [.release (.hub h), .acquire .scheduleLock]) ∧
    (k.intsEnabled = true →
      EventHub.blockCurrentThread h guard true k = .error (.assertion 148)) := by
  constructor
  · intro hints hg
    have hl : guard.isLocked = true ∧ guard.mutex = .hub h := by
      simpa [Guard.protects] using hg
    refine ⟨((k.setHub h { (k.hubs h) with
        p_waitingThreads := LinkedList.addBack (k.hubs h).p_waitingThreads k.currentThread
        }).logLock (.release guard.mutex)).logLock (.acquire .scheduleLock),
      ?_, ?_, ?_, ?_, ?_, ?_⟩
    · simp [EventHub.blockCurrentThread, hints, hg, Guard.unlock, hl.1, Guard.acquire]
    · simp [Kernel.setHub, Kernel.logLock, LinkedList.addBack]
    · simp [Kernel.setHub, Kernel.logLock]
    · intro h1 hne
      simp [Kernel.setHub, Kernel.logLock, hne]
    · simp [Kernel.setHub, Kernel.logLock]
    · simp [Kernel.setHub, Kernel.logLock, hl.2]
  · intro hints
    simp [EventHub.blockCurrentThread, hints]

/-- Witness of C19: thread 5 blocks on the fresh hub 1 of `bootKernel`; with interrupts
enabled the same call stops on the assertion. -/
theorem blockCurrentThread_sleeping_path_witness :
    bootKernel.intsEnabled = false ∧ (hubGuard 1).protects (.hub 1) = true ∧
    (∃ k1, EventHub.blockCurrentThread 1 (hubGuard 1) true bootKernel =
        .ok (.scheduled { mutex := .hub 1, isLocked := false }
          { mutex := .scheduleLock, isLocked := true } k1) ∧
      (k1.hubs 1).p_waitingThreads = [5] ∧
      (k1.hubs 1)._eventQueue = [] ∧
      (∀ h1, h1 ≠ 1 → k1.hubs h1 = bootKernel.hubs h1) ∧
      k1.scheduleQueue = [] ∧
      k1.lockTrace = [.release (.hub 1), .acquire .scheduleLock]) ∧
    EventHub.blockCurrentThread 1 (hubGuard 1) true { bootKernel with intsEnabled := true } =
      .error (.assertion 148) :=
  ⟨rfl, by decide,
    (blockCurrentThread_sleeping_path 1 (hubGuard 1) bootKernel).1 rfl (by decide),
    (blockCurrentThread_sleeping_path 1 (hubGuard 1)
      { bootKernel with intsEnabled := true }).2 rfl⟩

end Thor
